import Mathlib

/-!
Shallow embedding of the women-safety backend's real-time safety core:
the haversine geospatial engine, the WebSocket presence registry, the
journey deviation state machine, and the proximity/SOS broadcast service.

Conventions of the embedding:
- JS numbers are modelled as real numbers; the JS Infinity sentinel used by
  the minimum-distance accumulator is modelled by the top element of EReal.
- Timestamps (Date values) are epoch milliseconds, modelled as real numbers
  for the journey engine and as naturals where they are rendered into a
  string (the SOS alert id).
- The connected-users Map of index.js is a partial map from user id to
  socket id, modelled as a function into Option.
- Fallible route handlers return an explicit error/ok outcome; the state
  they would persist is returned alongside the outcome.
-/

noncomputable section

/-- JS Math.atan2 over the reals (the sign conventions of atan2; the
negative-zero and NaN cases never arise in the uses below). -/
def atan2 (y x : ℝ) : ℝ :=
  if 0 < x then Real.arctan (y / x)
  else if x < 0 then
    (if 0 ≤ y then Real.arctan (y / x) + Real.pi else Real.arctan (y / x) - Real.pi)
  else
    (if 0 < y then Real.pi / 2 else if y < 0 then -(Real.pi / 2) else 0)

/-- Haversine great-circle distance in km, exactly as the calculateDistance
helper that appears in both the journey and the emergency route files:
Earth radius 6371 km, degree-to-radian conversion by pi/180. -/
def calculateDistance (lat1 lng1 lat2 lng2 : ℝ) : ℝ :=
  let R : ℝ := 6371
  let dLat : ℝ := (lat2 - lat1) * Real.pi / 180
  let dLng : ℝ := (lng2 - lng1) * Real.pi / 180
  let a : ℝ := Real.sin (dLat / 2) * Real.sin (dLat / 2) +
    Real.cos (lat1 * Real.pi / 180) * Real.cos (lat2 * Real.pi / 180) *
    (Real.sin (dLng / 2) * Real.sin (dLng / 2))
  let c : ℝ := 2 * atan2 (Real.sqrt a) (Real.sqrt (1 - a))
  R * c

/-- The minimum-distance loop of the check-deviation handler: the
accumulator starts at Infinity (EReal top) and is replaced whenever a
route-path vertex is strictly closer. -/
def minDistanceToPath (lat lng : ℝ) (path : List (ℝ × ℝ)) : EReal :=
  path.foldl
    (fun m q =>
      if ((calculateDistance lat lng q.1 q.2 : ℝ) : EReal) < m
      then ((calculateDistance lat lng q.1 q.2 : ℝ) : EReal) else m)
    ⊤

/-- The connected-users Map of index.js: user id to socket id. -/
abbrev Registry := String → Option String

def emptyRegistry : Registry := fun _ => none

/-- The connection handler of index.js: connectedUsers.set(userId, socket.id);
an existing entry for the same user id is overwritten. -/
def registerConn (userId socketId : String) (m : Registry) : Registry :=
  fun k => if k = userId then some socketId else m k

/-- The disconnect handler of index.js: connectedUsers.delete(userId).
The deletion is unconditional: it does not compare socket.id against the
currently registered handle. -/
def disconnectConn (userId : String) (m : Registry) : Registry :=
  fun k => if k = userId then none else m k

/-- Claim C1: registering connection A for identity X, then connection B,
then letting stale connection A disconnect is claimed to leave X mapped
to B. The disconnect handler deletes unconditionally, so X in fact ends
up unmapped: before A's disconnect the registry maps X to B (the second
conjunct), and after it the lookup returns none (the first conjunct). -/
theorem c1_stale_disconnect_evicts_fresh_registration :
    disconnectConn "X" (registerConn "X" "B" (registerConn "X" "A" emptyRegistry)) "X" = none ∧
    registerConn "X" "B" (registerConn "X" "A" emptyRegistry) "X" = some "B" := by
  constructor
  · simp [disconnectConn]
  · simp [registerConn]

/-- Coordinate validation shared by the route handlers:
lat in [-90, 90] and lng in [-180, 180]. -/
def validateCoordinates (lat lng : ℝ) : Bool :=
  decide (-90 ≤ lat ∧ lat ≤ 90 ∧ -180 ≤ lng ∧ lng ≤ 180)

/-- The activeJourney record stored on the user document. The from and to
waypoints carry their coordinates (from is a Lean keyword, hence fromLoc
and toLoc); route-path entries are [lat, lng] pairs. -/
structure Journey where
  isActive : Bool
  fromLoc : Option (ℝ × ℝ)
  toLoc : Option (ℝ × ℝ)
  selectedRoutePath : List (ℝ × ℝ)
  deviationDetected : Bool
  deviationAlertSent : Bool
  deviationAlertTime : Option ℝ
  startedAt : Option ℝ

/-- The JSON body of a successful check-deviation response. The flags that
a given branch does not include in its JSON object are false here, and
the guard branch carries no distanceFromRoute. -/
structure CheckResponse where
  onRoute : Bool
  distanceFromRoute : Option EReal
  alertSent : Bool
  alertPending : Bool
  parentAlerted : Bool
  message : String

/-- A child-deviation-alert event published to the parent's socket:
the payload carries the current location, the distance from the route
and the timestamp. -/
structure DeviationEmit where
  socketId : String
  event : String
  lat : ℝ
  lng : ℝ
  distanceFromRoute : EReal
  timestamp : ℝ

/-- Outcome of a route handler: a 400 rejection or a success payload. -/
inductive CheckOutcome where
  | invalid (msg : String)
  | ok (resp : CheckResponse)

/-- The fixed 200 m deviation threshold of the check-deviation handler. -/
def DEVIATION_THRESHOLD : ℝ := 0.2

/-- The check-deviation handler. Inputs: the connected-users registry and
the traveler's parentId (io and req.user in the source), the stored
journey, the reported current coordinates, and the current time in epoch
milliseconds. Output: the journey as left in the store, the HTTP outcome,
and the list of published socket events. -/
def checkDeviation (connectedUsers : Registry) (parentId : Option String)
    (j : Journey) (currentLat currentLng now : ℝ) :
    Journey × CheckOutcome × List DeviationEmit :=
  if validateCoordinates currentLat currentLng = false then
    (j, CheckOutcome.invalid "Invalid coordinates", [])
  else if j.isActive = false ∨ j.selectedRoutePath = [] then
    (j, CheckOutcome.ok (CheckResponse.mk true none false false false
      "No active journey or route path"), [])
  else
    let minDistance : EReal := minDistanceToPath currentLat currentLng j.selectedRoutePath
    let isOffRoute : Bool := decide (((DEVIATION_THRESHOLD : ℝ) : EReal) < minDistance)
    if isOffRoute && !j.deviationAlertSent then
      (Journey.mk j.isActive j.fromLoc j.toLoc j.selectedRoutePath
        true true (some now) j.startedAt,
       CheckOutcome.ok (CheckResponse.mk false (some minDistance) true false false
         "You seem to have gone off your planned route. Are you okay?"), [])
    else if isOffRoute && j.deviationAlertSent then
      let alertTime : ℝ := j.deviationAlertTime.getD 0
      let minutesSinceAlert : ℝ := (now - alertTime) / 1000 / 60
      if 5 < minutesSinceAlert ∧ parentId.isSome = true then
        let emits : List DeviationEmit :=
          match parentId.bind connectedUsers with
          | some sid =>
            [DeviationEmit.mk sid "child-deviation-alert" currentLat currentLng minDistance now]
          | none => []
        (j, CheckOutcome.ok (CheckResponse.mk false (some minDistance) false false true
          "Parent has been notified"), emits)
      else
        (j, CheckOutcome.ok (CheckResponse.mk false (some minDistance) false true false
          "Waiting for response"), [])
    else
      (j, CheckOutcome.ok (CheckResponse.mk true (some minDistance) false false false
        "On route"), [])

/-- Outcome of the deviation-response handler. -/
inductive RespondOutcome where
  | ok (message : String)
  | invalid (msg : String)

/-- The deviation-response handler: isOkay true resets the three deviation
fields and succeeds; isOkay false is rejected with a 400 before any
mutation. -/
def deviationResponse (j : Journey) (isOkay : Bool) : Journey × RespondOutcome :=
  if isOkay then
    (Journey.mk j.isActive j.fromLoc j.toLoc j.selectedRoutePath
      false false none j.startedAt,
     RespondOutcome.ok "Response recorded successfully")
  else
    (j, RespondOutcome.invalid "Invalid response")

/-- The journey start handler: coordinate validation, then a fresh active
journey with cleared deviation flags; a child-journey-started event goes
to the parent's socket when one is registered. The Bool is success. -/
def startJourney (connectedUsers : Registry) (parentId : Option String)
    (fromLoc toLoc : ℝ × ℝ) (selectedRoutePath : Option (List (ℝ × ℝ))) (now : ℝ)
    (j : Journey) : Journey × Bool × List (String × String) :=
  if validateCoordinates fromLoc.1 fromLoc.2 = false ∨
      validateCoordinates toLoc.1 toLoc.2 = false then
    (j, false, [])
  else
    (Journey.mk true (some fromLoc) (some toLoc) (selectedRoutePath.getD [])
      false false none (some now),
     true,
     match parentId.bind connectedUsers with
     | some sid => [(sid, "child-journey-started")]
     | none => [])

/-- The journey stop handler: every journey field reset to its inactive
value; a child-journey-stopped event goes to the parent's socket when one
is registered. -/
def stopJourney (connectedUsers : Registry) (parentId : Option String) (_j : Journey) :
    Journey × List (String × String) :=
  (Journey.mk false none none [] false false none none,
   match parentId.bind connectedUsers with
   | some sid => [(sid, "child-journey-stopped")]
   | none => [])

/-- One operation of the journey engine, for stating invariants that range
over every handler. -/
inductive JourneyOp where
  | start (fromLoc toLoc : ℝ × ℝ) (path : Option (List (ℝ × ℝ))) (now : ℝ)
  | stop
  | respond (isOkay : Bool)
  | check (lat lng now : ℝ)

/-- The journey state left in the store by one operation. -/
def applyJourneyOp (reg : Registry) (parentId : Option String) (j : Journey) :
    JourneyOp → Journey
  | JourneyOp.start f t p now => (startJourney reg parentId f t p now j).1
  | JourneyOp.stop => (stopJourney reg parentId j).1
  | JourneyOp.respond b => (deviationResponse j b).1
  | JourneyOp.check lat lng now => (checkDeviation reg parentId j lat lng now).1

/-- The spec's journey invariant: deviationAlertTime is non-null iff
deviationAlertSent is true. -/
def journeyInv (j : Journey) : Prop :=
  j.deviationAlertTime.isSome = j.deviationAlertSent

/-- Evaluation of the atan2 step of the haversine formula on the square
roots the formula produces, for an angle in the first quadrant. -/
lemma atan2_sqrt_sin_sq (x : ℝ) (h0 : 0 ≤ x) (h1 : x < Real.pi / 2) :
    atan2 (Real.sqrt (Real.sin x * Real.sin x)) (Real.sqrt (1 - Real.sin x * Real.sin x)) = x := by
  have hpi := Real.pi_pos
  have hsin : 0 ≤ Real.sin x := Real.sin_nonneg_of_nonneg_of_le_pi h0 (by linarith)
  have hcos : 0 < Real.cos x := Real.cos_pos_of_mem_Ioo ⟨by linarith, h1⟩
  have h1a : 1 - Real.sin x * Real.sin x = Real.cos x * Real.cos x := by
    have h := Real.sin_sq_add_cos_sq x
    nlinarith [h]
  rw [h1a, Real.sqrt_mul_self hsin, Real.sqrt_mul_self hcos.le]
  unfold atan2
  rw [if_pos hcos, ← Real.tan_eq_sin_div_cos]
  exact Real.arctan_tan (by linarith) h1

/-- The haversine distance from a point to itself is zero. -/
lemma calculateDistance_self (lat lng : ℝ) : calculateDistance lat lng lat lng = 0 := by
  unfold calculateDistance atan2
  simp [sub_self, Real.sqrt_one, Real.arctan_zero]

/-- The haversine distance from the origin to a point L degrees north on
the same meridian, for L below 180 degrees, in closed form. -/
lemma calculateDistance_meridian (L : ℝ) (h0 : 0 ≤ L) (h1 : L < 180) :
    calculateDistance 0 0 L 0 = 6371 * (L * Real.pi / 180) := by
  have hpi := Real.pi_pos
  have hx0 : 0 ≤ L * Real.pi / 180 / 2 := by positivity
  have hx1 : L * Real.pi / 180 / 2 < Real.pi / 2 := by nlinarith
  unfold calculateDistance
  simp only [sub_zero, sub_self, zero_mul, zero_div, mul_zero, Real.sin_zero, add_zero]
  rw [atan2_sqrt_sin_sq (L * Real.pi / 180 / 2) hx0 hx1]
  ring

/-- The minimum-distance fold returns either its accumulator or one of the
per-vertex distances. -/
lemma minFold_mem_or_acc (d : ℝ × ℝ → EReal) :
    ∀ (path : List (ℝ × ℝ)) (acc : EReal),
      path.foldl (fun m q => if d q < m then d q else m) acc = acc ∨
      ∃ q ∈ path, path.foldl (fun m q => if d q < m then d q else m) acc = d q := by
  intro path
  induction path with
  | nil => intro acc; exact Or.inl rfl
  | cons p rest ih =>
    intro acc
    simp only [List.foldl_cons]
    by_cases h : d p < acc
    · rw [if_pos h]
      rcases ih (d p) with h1 | ⟨q, hq, h2⟩
      · exact Or.inr ⟨p, List.mem_cons_self _ _, h1⟩
      · exact Or.inr ⟨q, List.mem_cons_of_mem _ hq, h2⟩
    · rw [if_neg h]
      rcases ih acc with h1 | ⟨q, hq, h2⟩
      · exact Or.inl h1
      · exact Or.inr ⟨q, List.mem_cons_of_mem _ hq, h2⟩

/-- The minimum-distance fold is a lower bound of its accumulator and of
every per-vertex distance. -/
lemma minFold_le (d : ℝ × ℝ → EReal) :
    ∀ (path : List (ℝ × ℝ)) (acc : EReal),
      path.foldl (fun m q => if d q < m then d q else m) acc ≤ acc ∧
      ∀ r ∈ path, path.foldl (fun m q => if d q < m then d q else m) acc ≤ d r := by
  intro path
  induction path with
  | nil => intro acc; exact ⟨le_refl _, by simp⟩
  | cons p rest ih =>
    intro acc
    simp only [List.foldl_cons]
    have hstep_acc : (if d p < acc then d p else acc) ≤ acc := by
      by_cases h : d p < acc
      · rw [if_pos h]; exact h.le
      · rw [if_neg h]
    have hstep_p : (if d p < acc then d p else acc) ≤ d p := by
      by_cases h : d p < acc
      · rw [if_pos h]
      · rw [if_neg h]; exact not_lt.mp h
    obtain ⟨h1, h2⟩ := ih (if d p < acc then d p else acc)
    refine ⟨h1.trans hstep_acc, ?_⟩
    intro r hr
    rcases List.mem_cons.mp hr with rfl | hr
    · exact h1.trans hstep_p
    · exact h2 r hr

/-- On the empty path the minimum-distance accumulator stays at Infinity. -/
lemma minDistanceToPath_nil (lat lng : ℝ) : minDistanceToPath lat lng [] = ⊤ := rfl

/-- On a one-vertex path the minimum distance is the distance to that
vertex. -/
lemma minDistanceToPath_single (lat lng a b : ℝ) :
    minDistanceToPath lat lng [(a, b)] = ((calculateDistance lat lng a b : ℝ) : EReal) := by
  unfold minDistanceToPath
  simp only [List.foldl_cons, List.foldl_nil]
  rw [if_pos (EReal.coe_lt_top _)]

/-- On a non-empty path the minimum-distance fold is attained at some
vertex and bounds the distance to every vertex. -/
lemma minDistanceToPath_attained (lat lng : ℝ) (path : List (ℝ × ℝ)) (h : path ≠ []) :
    ∃ q ∈ path,
      minDistanceToPath lat lng path = ((calculateDistance lat lng q.1 q.2 : ℝ) : EReal) ∧
      ∀ r ∈ path, calculateDistance lat lng q.1 q.2 ≤ calculateDistance lat lng r.1 r.2 := by
  have hmem := minFold_mem_or_acc
    (fun q => ((calculateDistance lat lng q.1 q.2 : ℝ) : EReal)) path ⊤
  have hle := minFold_le
    (fun q => ((calculateDistance lat lng q.1 q.2 : ℝ) : EReal)) path ⊤
  rcases hmem with htop | ⟨q, hq, heq⟩
  · obtain ⟨r, hr⟩ := List.exists_mem_of_ne_nil path h
    have hbound := hle.2 r hr
    rw [htop] at hbound
    exact absurd (top_le_iff.mp hbound) (EReal.coe_ne_top _)
  · refine ⟨q, hq, heq, ?_⟩
    intro r hr
    have hbound := hle.2 r hr
    rw [heq] at hbound
    exact EReal.coe_le_coe_iff.mp hbound

/-- Distance from the origin to the north pole along the meridian. -/
lemma calculateDistance_pole : calculateDistance 0 0 90 0 = 6371 * (90 * Real.pi / 180) :=
  calculateDistance_meridian 90 (by norm_num) (by norm_num)

/-- The pole is far beyond the 200 m deviation threshold. -/
lemma pole_off_route : (DEVIATION_THRESHOLD : ℝ) < calculateDistance 0 0 90 0 := by
  rw [calculateDistance_pole]
  unfold DEVIATION_THRESHOLD
  nlinarith [Real.pi_gt_three]

/-- The origin passes coordinate validation. -/
lemma validateCoordinates_zero : validateCoordinates 0 0 = true := by
  simp [validateCoordinates]

/-- First-alert branch of check-deviation: off route with no alert sent
yet sets the deviation flags and the alert time, reports alertSent, and
publishes nothing. -/
lemma checkDeviation_first_alert (reg : Registry) (pid : Option String) (j : Journey)
    (lat lng now : ℝ) (hv : validateCoordinates lat lng = true) (hact : j.isActive = true)
    (hpath : j.selectedRoutePath ≠ [])
    (hoff : ((DEVIATION_THRESHOLD : ℝ) : EReal) < minDistanceToPath lat lng j.selectedRoutePath)
    (hsent : j.deviationAlertSent = false) :
    checkDeviation reg pid j lat lng now =
      (Journey.mk j.isActive j.fromLoc j.toLoc j.selectedRoutePath true true (some now)
        j.startedAt,
       CheckOutcome.ok (CheckResponse.mk false
         (some (minDistanceToPath lat lng j.selectedRoutePath)) true false false
         "You seem to have gone off your planned route. Are you okay?"), []) := by
  unfold checkDeviation
  rw [hv, hact, hsent]
  simp [hpath, hoff]

/-- Escalation branch of check-deviation: off route with the alert already
sent, more than five minutes elapsed, and a parentId present reports
parentAlerted and publishes the child-deviation-alert exactly when the
parent has a registered connection. -/
lemma checkDeviation_escalate (reg : Registry) (pid : Option String) (j : Journey)
    (lat lng now : ℝ) (hv : validateCoordinates lat lng = true) (hact : j.isActive = true)
    (hpath : j.selectedRoutePath ≠ [])
    (hoff : ((DEVIATION_THRESHOLD : ℝ) : EReal) < minDistanceToPath lat lng j.selectedRoutePath)
    (hsent : j.deviationAlertSent = true)
    (htime : 5 < (now - j.deviationAlertTime.getD 0) / 1000 / 60)
    (hpid : pid.isSome = true) :
    checkDeviation reg pid j lat lng now =
      (j, CheckOutcome.ok (CheckResponse.mk false
        (some (minDistanceToPath lat lng j.selectedRoutePath)) false false true
        "Parent has been notified"),
       match pid.bind reg with
       | some sid =>
         [DeviationEmit.mk sid "child-deviation-alert" lat lng
           (minDistanceToPath lat lng j.selectedRoutePath) now]
       | none => []) := by
  unfold checkDeviation
  rw [hv, hact, hsent]
  simp [hpath, hoff, htime, hpid, not_lt.mpr hoff.le]

/-- Pending branch of check-deviation: off route with the alert already
sent but the escalation condition not met reports alertPending and
publishes nothing. -/
lemma checkDeviation_pending (reg : Registry) (pid : Option String) (j : Journey)
    (lat lng now : ℝ) (hv : validateCoordinates lat lng = true) (hact : j.isActive = true)
    (hpath : j.selectedRoutePath ≠ [])
    (hoff : ((DEVIATION_THRESHOLD : ℝ) : EReal) < minDistanceToPath lat lng j.selectedRoutePath)
    (hsent : j.deviationAlertSent = true)
    (hcond : ¬ (5 < (now - j.deviationAlertTime.getD 0) / 1000 / 60 ∧ pid.isSome = true)) :
    checkDeviation reg pid j lat lng now =
      (j, CheckOutcome.ok (CheckResponse.mk false
        (some (minDistanceToPath lat lng j.selectedRoutePath)) false true false
        "Waiting for response"), []) := by
  unfold checkDeviation
  rw [hv, hact, hsent]
  simp [hpath, hoff, hcond]

/-- On-route branch of check-deviation: distance within the threshold
reports onRoute, leaves the journey untouched and publishes nothing. -/
lemma checkDeviation_on_route (reg : Registry) (pid : Option String) (j : Journey)
    (lat lng now : ℝ) (hv : validateCoordinates lat lng = true) (hact : j.isActive = true)
    (hpath : j.selectedRoutePath ≠ [])
    (hon : minDistanceToPath lat lng j.selectedRoutePath ≤ ((DEVIATION_THRESHOLD : ℝ) : EReal)) :
    checkDeviation reg pid j lat lng now =
      (j, CheckOutcome.ok (CheckResponse.mk true
        (some (minDistanceToPath lat lng j.selectedRoutePath)) false false false
        "On route"), []) := by
  unfold checkDeviation
  rw [hv, hact]
  simp [hpath, not_lt.mpr hon]

/-- Concrete traveler at the origin whose one-vertex route path sits at the
pole: far off route, no alert sent yet. -/
def jOffFresh : Journey :=
  Journey.mk true (some (0, 0)) (some (90, 0)) [(90, 0)] false false none (some 0)

/-- Same traveler after the first alert fired at time 0. -/
def jOffSent : Journey :=
  Journey.mk true (some (0, 0)) (some (90, 0)) [(90, 0)] true true (some 0) (some 0)

/-- Traveler at the origin whose route path passes through the origin,
with a pending deviation alert from time 0. -/
def jOnSent : Journey :=
  Journey.mk true (some (0, 0)) (some (0, 0)) [(0, 0)] true true (some 0) (some 0)

/-- The pole path is beyond the threshold as seen from the origin. -/
lemma pathPole_off :
    ((DEVIATION_THRESHOLD : ℝ) : EReal) < minDistanceToPath 0 0 [((90 : ℝ), (0 : ℝ))] := by
  rw [minDistanceToPath_single]
  exact EReal.coe_lt_coe_iff.mpr pole_off_route

/-- The origin path is within the threshold as seen from the origin. -/
lemma pathZero_on :
    minDistanceToPath 0 0 [((0 : ℝ), (0 : ℝ))] ≤ ((DEVIATION_THRESHOLD : ℝ) : EReal) := by
  rw [minDistanceToPath_single, calculateDistance_self]
  refine EReal.coe_le_coe_iff.mpr ?_
  unfold DEVIATION_THRESHOLD
  norm_num

/-- Claim C3: for an active journey with a non-empty route path and
deviationAlertSent false, a check-deviation call whose computed minimum
distance exceeds the 0.2 km threshold sets deviationDetected,
deviationAlertSent and deviationAlertTime to the current time, responds
off-route with alertSent true, and publishes no parent notification. -/
theorem c3_first_alert_sets_flags_no_notification (reg : Registry) (pid : Option String)
    (j : Journey) (lat lng now : ℝ) (hv : validateCoordinates lat lng = true)
    (hact : j.isActive = true) (hpath : j.selectedRoutePath ≠ [])
    (hsent : j.deviationAlertSent = false)
    (hoff : ((DEVIATION_THRESHOLD : ℝ) : EReal) < minDistanceToPath lat lng j.selectedRoutePath) :
    (checkDeviation reg pid j lat lng now).1.deviationDetected = true ∧
    (checkDeviation reg pid j lat lng now).1.deviationAlertSent = true ∧
    (checkDeviation reg pid j lat lng now).1.deviationAlertTime = some now ∧
    (checkDeviation reg pid j lat lng now).2.1 =
      CheckOutcome.ok (CheckResponse.mk false
        (some (minDistanceToPath lat lng j.selectedRoutePath)) true false false
        "You seem to have gone off your planned route. Are you okay?") ∧
    (checkDeviation reg pid j lat lng now).2.2 = [] := by
  rw [checkDeviation_first_alert reg pid j lat lng now hv hact hpath hoff hsent]
  exact ⟨rfl, rfl, rfl, rfl, rfl⟩

/-- Witness for C3 at the concrete off-route traveler jOffFresh. -/
theorem c3_first_alert_sets_flags_no_notification_witness :
    (validateCoordinates 0 0 = true ∧ jOffFresh.isActive = true ∧
      jOffFresh.selectedRoutePath ≠ [] ∧ jOffFresh.deviationAlertSent = false ∧
      ((DEVIATION_THRESHOLD : ℝ) : EReal) <
        minDistanceToPath 0 0 jOffFresh.selectedRoutePath) ∧
    ((checkDeviation emptyRegistry none jOffFresh 0 0 7).1.deviationDetected = true ∧
     (checkDeviation emptyRegistry none jOffFresh 0 0 7).1.deviationAlertSent = true ∧
     (checkDeviation emptyRegistry none jOffFresh 0 0 7).1.deviationAlertTime = some 7 ∧
     (checkDeviation emptyRegistry none jOffFresh 0 0 7).2.1 =
       CheckOutcome.ok (CheckResponse.mk false
         (some (minDistanceToPath 0 0 jOffFresh.selectedRoutePath)) true false false
         "You seem to have gone off your planned route. Are you okay?") ∧
     (checkDeviation emptyRegistry none jOffFresh 0 0 7).2.2 = []) :=
  ⟨⟨validateCoordinates_zero, rfl, by simp [jOffFresh], rfl, pathPole_off⟩,
   c3_first_alert_sets_flags_no_notification emptyRegistry none jOffFresh 0 0 7
     validateCoordinates_zero rfl (by simp [jOffFresh]) rfl pathPole_off⟩

/-- Claim C4: for an active journey, a check-deviation call whose computed
minimum distance is at most the threshold reports on-route and leaves the
stored journey exactly as it was; a previously set deviation flag or alert
time is not cleared, and nothing is published. -/
theorem c4_on_route_leaves_journey_unchanged (reg : Registry) (pid : Option String)
    (j : Journey) (lat lng now : ℝ) (hv : validateCoordinates lat lng = true)
    (hact : j.isActive = true)
    (hon : minDistanceToPath lat lng j.selectedRoutePath ≤ ((DEVIATION_THRESHOLD : ℝ) : EReal)) :
    (checkDeviation reg pid j lat lng now).1 = j ∧
    (checkDeviation reg pid j lat lng now).2.1 =
      CheckOutcome.ok (CheckResponse.mk true
        (some (minDistanceToPath lat lng j.selectedRoutePath)) false false false "On route") ∧
    (checkDeviation reg pid j lat lng now).2.2 = [] := by
  have hpath : j.selectedRoutePath ≠ [] := by
    intro hnil
    rw [hnil, minDistanceToPath_nil] at hon
    exact absurd (top_le_iff.mp hon) (EReal.coe_ne_top _)
  rw [checkDeviation_on_route reg pid j lat lng now hv hact hpath hon]
  exact ⟨rfl, rfl, rfl⟩

/-- Witness for C4 at the concrete traveler jOnSent, whose deviation flags
are set and stay set through an on-route check. -/
theorem c4_on_route_leaves_journey_unchanged_witness :
    (validateCoordinates 0 0 = true ∧ jOnSent.isActive = true ∧
      minDistanceToPath 0 0 jOnSent.selectedRoutePath ≤ ((DEVIATION_THRESHOLD : ℝ) : EReal)) ∧
    ((checkDeviation emptyRegistry none jOnSent 0 0 9).1 = jOnSent ∧
     (checkDeviation emptyRegistry none jOnSent 0 0 9).2.1 =
       CheckOutcome.ok (CheckResponse.mk true
         (some (minDistanceToPath 0 0 jOnSent.selectedRoutePath)) false false false "On route") ∧
     (checkDeviation emptyRegistry none jOnSent 0 0 9).2.2 = []) :=
  ⟨⟨validateCoordinates_zero, rfl, pathZero_on⟩,
   c4_on_route_leaves_journey_unchanged emptyRegistry none jOnSent 0 0 9
     validateCoordinates_zero rfl pathZero_on⟩

/-- Claim C5: responding isOkay true clears all three deviation fields and
succeeds; responding isOkay false is rejected as invalid input with the
journey unchanged; and after a successful okay response, a check at the
same off-route point re-enters the first-alert branch. -/
theorem c5_deviation_response (reg : Registry) (pid : Option String) (j : Journey)
    (lat lng now : ℝ) :
    ((deviationResponse j true).1.deviationDetected = false ∧
     (deviationResponse j true).1.deviationAlertSent = false ∧
     (deviationResponse j true).1.deviationAlertTime = none ∧
     (deviationResponse j true).2 = RespondOutcome.ok "Response recorded successfully") ∧
    deviationResponse j false = (j, RespondOutcome.invalid "Invalid response") ∧
    (validateCoordinates lat lng = true → j.isActive = true → j.selectedRoutePath ≠ [] →
      ((DEVIATION_THRESHOLD : ℝ) : EReal) < minDistanceToPath lat lng j.selectedRoutePath →
      (checkDeviation reg pid (deviationResponse j true).1 lat lng now).2.1 =
        CheckOutcome.ok (CheckResponse.mk false
          (some (minDistanceToPath lat lng j.selectedRoutePath)) true false false
          "You seem to have gone off your planned route. Are you okay?")) := by
  refine ⟨⟨rfl, rfl, rfl, rfl⟩, rfl, ?_⟩
  intro hv hact hpath hoff
  rw [checkDeviation_first_alert reg pid (deviationResponse j true).1 lat lng now hv hact
    hpath hoff rfl]
  rfl

/-- Witness for C5 at the concrete traveler jOffSent. -/
theorem c5_deviation_response_witness :
    (validateCoordinates 0 0 = true ∧ jOffSent.isActive = true ∧
      jOffSent.selectedRoutePath ≠ [] ∧
      ((DEVIATION_THRESHOLD : ℝ) : EReal) <
        minDistanceToPath 0 0 jOffSent.selectedRoutePath) ∧
    ((deviationResponse jOffSent true).1.deviationAlertSent = false ∧
     deviationResponse jOffSent false = (jOffSent, RespondOutcome.invalid "Invalid response") ∧
     (checkDeviation emptyRegistry none (deviationResponse jOffSent true).1 0 0 11).2.1 =
       CheckOutcome.ok (CheckResponse.mk false
         (some (minDistanceToPath 0 0 jOffSent.selectedRoutePath)) true false false
         "You seem to have gone off your planned route. Are you okay?")) := by
  have h := c5_deviation_response emptyRegistry none jOffSent 0 0 11
  exact ⟨⟨validateCoordinates_zero, rfl, by simp [jOffSent], pathPole_off⟩,
    h.1.2.1, h.2.1,
    h.2.2 validateCoordinates_zero rfl (by simp [jOffSent]) pathPole_off⟩

/-- Claim C2, counterexample: the traveler has a parentId but no parent
connection is registered; after more than five minutes the handler still
responds parentAlerted true (the claim requires alertPending true here)
and publishes nothing. -/
theorem c2_counterexample_parent_without_connection :
    emptyRegistry "P" = none ∧
    (checkDeviation emptyRegistry (some "P") jOffSent 0 0 600000).2.1 =
      CheckOutcome.ok (CheckResponse.mk false
        (some (minDistanceToPath 0 0 jOffSent.selectedRoutePath)) false false true
        "Parent has been notified") ∧
    (checkDeviation emptyRegistry (some "P") jOffSent 0 0 600000).2.2 = [] := by
  have h := checkDeviation_escalate emptyRegistry (some "P") jOffSent 0 0 600000
    validateCoordinates_zero rfl (by simp [jOffSent]) pathPole_off rfl
    (by norm_num [jOffSent]) rfl
  rw [h]
  exact ⟨rfl, rfl, rfl⟩

/-- Claim C2, amended: in the escalation window (off route, alert already
sent, more than five minutes elapsed) the handler responds parentAlerted
true exactly when the traveler has a parentId, whether or not that parent
has a registered connection; the child-deviation-alert (current location,
distance, timestamp) is published exactly when the parent connection is
registered; and the handler responds alertPending true when the traveler
has no parentId. -/
theorem c2_escalation_follows_parent_id (reg : Registry) (pid : Option String) (j : Journey)
    (lat lng now : ℝ) (hv : validateCoordinates lat lng = true) (hact : j.isActive = true)
    (hpath : j.selectedRoutePath ≠ [])
    (hoff : ((DEVIATION_THRESHOLD : ℝ) : EReal) < minDistanceToPath lat lng j.selectedRoutePath)
    (hsent : j.deviationAlertSent = true)
    (htime : 5 < (now - j.deviationAlertTime.getD 0) / 1000 / 60) :
    (∀ p, pid = some p →
      (checkDeviation reg pid j lat lng now).2.1 =
        CheckOutcome.ok (CheckResponse.mk false
          (some (minDistanceToPath lat lng j.selectedRoutePath)) false false true
          "Parent has been notified") ∧
      (∀ sid, reg p = some sid →
        (checkDeviation reg pid j lat lng now).2.2 =
          [DeviationEmit.mk sid "child-deviation-alert" lat lng
            (minDistanceToPath lat lng j.selectedRoutePath) now]) ∧
      (reg p = none → (checkDeviation reg pid j lat lng now).2.2 = [])) ∧
    (pid = none →
      (checkDeviation reg pid j lat lng now).2.1 =
        CheckOutcome.ok (CheckResponse.mk false
          (some (minDistanceToPath lat lng j.selectedRoutePath)) false true false
          "Waiting for response") ∧
      (checkDeviation reg pid j lat lng now).2.2 = []) := by
  constructor
  · intro p hp
    subst hp
    have h := checkDeviation_escalate reg (some p) j lat lng now hv hact hpath hoff hsent
      htime rfl
    rw [h]
    refine ⟨rfl, ?_, ?_⟩
    · intro sid hsid
      simp [Option.bind, hsid]
    · intro hsid
      simp [Option.bind, hsid]
  · intro hp
    subst hp
    have h := checkDeviation_pending reg none j lat lng now hv hact hpath hoff hsent
      (by simp)
    rw [h]
    exact ⟨rfl, rfl⟩

/-- Witness for the amended C2 at jOffSent with a registered parent
connection. -/
theorem c2_escalation_follows_parent_id_witness :
    (validateCoordinates 0 0 = true ∧ jOffSent.isActive = true ∧
      jOffSent.selectedRoutePath ≠ [] ∧
      ((DEVIATION_THRESHOLD : ℝ) : EReal) <
        minDistanceToPath 0 0 jOffSent.selectedRoutePath ∧
      jOffSent.deviationAlertSent = true ∧
      5 < ((600000 : ℝ) - jOffSent.deviationAlertTime.getD 0) / 1000 / 60) ∧
    ((checkDeviation (registerConn "P" "sock1" emptyRegistry) (some "P") jOffSent
        0 0 600000).2.1 =
      CheckOutcome.ok (CheckResponse.mk false
        (some (minDistanceToPath 0 0 jOffSent.selectedRoutePath)) false false true
        "Parent has been notified") ∧
     (checkDeviation (registerConn "P" "sock1" emptyRegistry) (some "P") jOffSent
        0 0 600000).2.2 =
      [DeviationEmit.mk "sock1" "child-deviation-alert" 0 0
        (minDistanceToPath 0 0 jOffSent.selectedRoutePath) 600000]) := by
  have h := c2_escalation_follows_parent_id (registerConn "P" "sock1" emptyRegistry)
    (some "P") jOffSent 0 0 600000 validateCoordinates_zero rfl (by simp [jOffSent])
    pathPole_off rfl (by norm_num [jOffSent])
  have hp := h.1 "P" rfl
  exact ⟨⟨validateCoordinates_zero, rfl, by simp [jOffSent], pathPole_off, rfl,
    by norm_num [jOffSent]⟩,
    hp.1, hp.2.1 "sock1" (by simp [registerConn])⟩

/-- Claim C9: the invariant that deviationAlertTime is non-null iff
deviationAlertSent is true is preserved by every operation of the journey
engine: start, stop, deviation-response and every branch of
check-deviation. -/
theorem c9_journey_invariant_preserved (reg : Registry) (pid : Option String) (j : Journey)
    (op : JourneyOp) (hinv : journeyInv j) : journeyInv (applyJourneyOp reg pid j op) := by
  cases op with
  | start f t p now =>
    simp only [applyJourneyOp, startJourney]
    split
    · exact hinv
    · simp [journeyInv]
  | stop => simp [applyJourneyOp, stopJourney, journeyInv]
  | respond b =>
    cases b with
    | true => simp [applyJourneyOp, deviationResponse, journeyInv]
    | false => simpa [applyJourneyOp, deviationResponse, journeyInv] using hinv
  | check lat lng now =>
    simp only [applyJourneyOp, checkDeviation]
    split
    · exact hinv
    · split
      · exact hinv
      · split
        · simp [journeyInv]
        · split
          · split
            · exact hinv
            · exact hinv
          · exact hinv

/-- Witness for C9: the invariant holds of the inactive journey and is
preserved when a check-deviation operation fires the first alert on the
off-route traveler. -/
theorem c9_journey_invariant_preserved_witness :
    journeyInv jOffFresh ∧
    journeyInv (applyJourneyOp emptyRegistry none jOffFresh (JourneyOp.check 0 0 3)) :=
  ⟨rfl, c9_journey_invariant_preserved emptyRegistry none jOffFresh
    (JourneyOp.check 0 0 3) rfl⟩

/-- Claim C6: the distanceFromRoute reported by check-deviation is the
minimum over the route-path vertices of the haversine distance to the
current point (a vertex-only approximation), and on the empty path the
minimum-distance accumulator is Infinity, which the handler special-cases
before use. -/
theorem c6_distance_is_vertex_minimum :
    (∀ lat lng : ℝ, minDistanceToPath lat lng [] = ⊤) ∧
    (∀ (reg : Registry) (pid : Option String) (j : Journey) (lat lng now : ℝ),
      validateCoordinates lat lng = true → j.isActive = true → j.selectedRoutePath ≠ [] →
      (∃ q ∈ j.selectedRoutePath,
        minDistanceToPath lat lng j.selectedRoutePath =
          ((calculateDistance lat lng q.1 q.2 : ℝ) : EReal) ∧
        ∀ r ∈ j.selectedRoutePath,
          calculateDistance lat lng q.1 q.2 ≤ calculateDistance lat lng r.1 r.2) ∧
      ∃ resp, (checkDeviation reg pid j lat lng now).2.1 = CheckOutcome.ok resp ∧
        resp.distanceFromRoute = some (minDistanceToPath lat lng j.selectedRoutePath)) := by
  refine ⟨fun lat lng => minDistanceToPath_nil lat lng, ?_⟩
  intro reg pid j lat lng now hv hact hpath
  refine ⟨minDistanceToPath_attained lat lng j.selectedRoutePath hpath, ?_⟩
  rcases lt_or_le ((DEVIATION_THRESHOLD : ℝ) : EReal)
      (minDistanceToPath lat lng j.selectedRoutePath) with hoff | hon
  · cases hsent : j.deviationAlertSent with
    | false =>
      rw [checkDeviation_first_alert reg pid j lat lng now hv hact hpath hoff hsent]
      exact ⟨_, rfl, rfl⟩
    | true =>
      by_cases hcond : 5 < (now - j.deviationAlertTime.getD 0) / 1000 / 60 ∧
          pid.isSome = true
      · rw [checkDeviation_escalate reg pid j lat lng now hv hact hpath hoff hsent
          hcond.1 hcond.2]
        exact ⟨_, rfl, rfl⟩
      · rw [checkDeviation_pending reg pid j lat lng now hv hact hpath hoff hsent hcond]
        exact ⟨_, rfl, rfl⟩
  · rw [checkDeviation_on_route reg pid j lat lng now hv hact hpath hon]
    exact ⟨_, rfl, rfl⟩

/-- Witness for C6 at the concrete off-route traveler jOffFresh. -/
theorem c6_distance_is_vertex_minimum_witness :
    (validateCoordinates 0 0 = true ∧ jOffFresh.isActive = true ∧
      jOffFresh.selectedRoutePath ≠ []) ∧
    ((∃ q ∈ jOffFresh.selectedRoutePath,
        minDistanceToPath 0 0 jOffFresh.selectedRoutePath =
          ((calculateDistance 0 0 q.1 q.2 : ℝ) : EReal) ∧
        ∀ r ∈ jOffFresh.selectedRoutePath,
          calculateDistance 0 0 q.1 q.2 ≤ calculateDistance 0 0 r.1 r.2) ∧
     ∃ resp, (checkDeviation emptyRegistry none jOffFresh 0 0 5).2.1 =
        CheckOutcome.ok resp ∧
        resp.distanceFromRoute = some (minDistanceToPath 0 0 jOffFresh.selectedRoutePath)) :=
  ⟨⟨validateCoordinates_zero, rfl, by simp [jOffFresh]⟩,
   c6_distance_is_vertex_minimum.2 emptyRegistry none jOffFresh 0 0 5
     validateCoordinates_zero rfl (by simp [jOffFresh])⟩

/-- One row of the users query that backs the nearby scan and the SOS
broadcast: users with isAppEnabled and an existing currentLocation
latitude and longitude, selected down to name, accountId and location. -/
structure UserSnapshot where
  userId : String
  name : String
  accountId : String
  latitude : ℝ
  longitude : ℝ
  address : Option String

/-- One entry of the nearbyUsers response array. -/
structure NearbyUser where
  userId : String
  name : String
  accountId : String
  distance : ℝ
  latitude : ℝ
  longitude : ℝ
  address : Option String

/-- JS x-or-null on an optional string field: the empty string is falsy
and collapses to null. -/
def jsAddressOrNull (a : Option String) : Option String :=
  match a with
  | some s => if s = "" then none else some s
  | none => none

/-- The object pushed for one nearby user: identity fields plus the
computed haversine distance and the candidate's location. -/
def toNearbyUser (lat lng : ℝ) (s : UserSnapshot) : NearbyUser :=
  NearbyUser.mk s.userId s.name s.accountId
    (calculateDistance lat lng s.latitude s.longitude) s.latitude s.longitude
    (jsAddressOrNull s.address)

/-- The candidate loop of the nearby-users handler: the query already
excludes the caller's own id; the loop re-checks currentLocation.latitude
for truthiness (a latitude of exactly 0 is falsy in JS and is skipped),
then keeps candidates within radiusKm. -/
def buildNearbyList (selfId : String) (lat lng radiusKm : ℝ) :
    List UserSnapshot → List NearbyUser
  | [] => []
  | s :: rest =>
    if s.userId = selfId then buildNearbyList selfId lat lng radiusKm rest
    else if s.latitude = 0 then buildNearbyList selfId lat lng radiusKm rest
    else if calculateDistance lat lng s.latitude s.longitude ≤ radiusKm then
      toNearbyUser lat lng s :: buildNearbyList selfId lat lng radiusKm rest
    else buildNearbyList selfId lat lng radiusKm rest

/-- Stable insertion into a list ordered by ascending distance: an element
goes in front of the first strictly-later element of equal or larger
distance, so equal distances keep their existing relative order. -/
def insertByDistance (x : NearbyUser) : List NearbyUser → List NearbyUser
  | [] => [x]
  | y :: ys => if x.distance ≤ y.distance then x :: y :: ys else y :: insertByDistance x ys

/-- The sort call of the nearby-users handler. The source sorts with the
comparator a.distance - b.distance through Array.prototype.sort, which
ECMAScript requires to be a stable ascending sort; a stable insertion
sort computes the same list. -/
def sortByDistance : List NearbyUser → List NearbyUser
  | [] => []
  | x :: xs => insertByDistance x (sortByDistance xs)

/-- The nearby-users scan: filter the snapshot, compute distances, keep
candidates within the radius, and sort ascending by distance. -/
def findNearby (selfId : String) (lat lng radiusKm : ℝ) (snap : List UserSnapshot) :
    List NearbyUser :=
  sortByDistance (buildNearbyList selfId lat lng radiusKm snap)

/-- The caller's stored currentLocation document; any of its fields may be
absent. -/
structure StoredLocation where
  latitude : Option ℝ
  longitude : Option ℝ
  address : Option String

/-- Truthiness of req.user.currentLocation and of its latitude field: the
guard fails when the document or its latitude is absent, and also when
the stored latitude is exactly 0 (falsy in JS). -/
def locationAvailable (loc : Option StoredLocation) : Bool :=
  match loc with
  | none => false
  | some l =>
    match l.latitude with
    | none => false
    | some v => decide (v ≠ 0)

/-- The JSON body of a successful nearby-users response. -/
structure NearbyResult where
  nearbyUsers : List NearbyUser
  count : ℕ
  radiusKm : ℝ

/-- The nearby-users route handler: coordinate validation, then the
caller-location guard, then the scan. The guard rejects before the
snapshot is consulted. -/
def findNearbyUsersRoute (selfId : String) (callerLoc : Option StoredLocation)
    (latitude longitude radiusKm : ℝ) (snap : List UserSnapshot) :
    Except String NearbyResult :=
  if validateCoordinates latitude longitude = false then
    Except.error "Invalid coordinates"
  else if locationAvailable callerLoc = false then
    Except.error "Your location is not available. Please enable location updates."
  else
    Except.ok (NearbyResult.mk (findNearby selfId latitude longitude radiusKm snap)
      (findNearby selfId latitude longitude radiusKm snap).length radiusKm)

/-- The SOS alert identifier: the sos_ prefix, the reporter's user id and
the millisecond timestamp of Date.now rendered in decimal. -/
def mkAlertId (userId : String) (now : ℕ) : String :=
  "sos_" ++ userId ++ "_" ++ Nat.repr now

/-- JS address fallback of the SOS payload: the request address, else the
caller's stored address, else null; empty strings are falsy. -/
def sosAddress (address : Option String) (callerLoc : Option StoredLocation) :
    Option String :=
  match jsAddressOrNull address with
  | some a => some a
  | none => jsAddressOrNull (callerLoc.bind StoredLocation.address)

/-- Rounding of parseFloat(distance.toFixed 2) for a non-negative
distance: to two decimals, half up. -/
def round2 (d : ℝ) : ℝ := (round (d * 100) : ℤ) / 100

/-- One nearby-sos-alert event emitted to a recipient's user room: the
alert payload (reporter identity, name, location, timestamp) plus that
recipient's computed distance. -/
structure SOSEmit where
  room : String
  event : String
  alertId : String
  userId : String
  userName : String
  accountId : String
  latitude : ℝ
  longitude : ℝ
  address : Option String
  timestamp : ℕ
  distance : ℝ

/-- The recipient loop of the SOS broadcast: the same snapshot query and
truthiness skip as the nearby scan, a fixed 5 km radius, and one room
emit per matched recipient carrying the payload and the rounded
distance. Returns the matched ids (in snapshot order) and the emits. -/
def sosScan (selfId selfName selfAccountId alertId : String) (addr : Option String)
    (latitude longitude : ℝ) (now : ℕ) :
    List UserSnapshot → List String × List SOSEmit
  | [] => ([], [])
  | s :: rest =>
    let r := sosScan selfId selfName selfAccountId alertId addr latitude longitude now rest
    if s.userId = selfId then r
    else if s.latitude = 0 then r
    else if calculateDistance latitude longitude s.latitude s.longitude ≤ 5 then
      (s.userId :: r.1,
       SOSEmit.mk ("user:" ++ s.userId) "nearby-sos-alert" alertId selfId selfName
         selfAccountId latitude longitude addr now
         (round2 (calculateDistance latitude longitude s.latitude s.longitude)) :: r.2)
    else r

/-- The JSON body of a successful sos-broadcast response. -/
structure SOSResult where
  alertId : String
  nearbyUsersNotified : ℕ
  nearbyUserIds : List String

/-- The sos-broadcast route handler: coordinate validation, a fixed 5 km
radius and a fresh alert id, then the recipient loop. There is no guard
on the caller's stored location, and no step consults the presence
registry: emits go to user rooms and are lost for recipients with no
live connection. -/
def broadcastSOS (selfId selfName selfAccountId : String)
    (callerLoc : Option StoredLocation) (latitude longitude : ℝ)
    (address : Option String) (now : ℕ) (snap : List UserSnapshot) :
    Except String (SOSResult × List SOSEmit) :=
  if validateCoordinates latitude longitude = false then
    Except.error "Invalid coordinates"
  else
    let scan := sosScan selfId selfName selfAccountId (mkAlertId selfId now)
      (sosAddress address callerLoc) latitude longitude now snap
    Except.ok (SOSResult.mk (mkAlertId selfId now) scan.1.length scan.1, scan.2)

/-- Stable insertion permutes: the result holds the new element and the
old list. -/
lemma insertByDistance_perm (x : NearbyUser) (l : List NearbyUser) :
    List.Perm (insertByDistance x l) (x :: l) := by
  induction l with
  | nil => exact List.Perm.refl _
  | cons y ys ih =>
    unfold insertByDistance
    by_cases h : x.distance ≤ y.distance
    · rw [if_pos h]
    · rw [if_neg h]
      exact (ih.cons y).trans (List.Perm.swap x y ys)

/-- The distance sort permutes its input. -/
lemma sortByDistance_perm (l : List NearbyUser) :
    List.Perm (sortByDistance l) l := by
  induction l with
  | nil => exact List.Perm.refl _
  | cons x xs ih =>
    exact (insertByDistance_perm x (sortByDistance xs)).trans (ih.cons x)

/-- Stable insertion preserves ascending order by distance. -/
lemma insertByDistance_pairwise (x : NearbyUser) (l : List NearbyUser)
    (h : List.Pairwise (fun a b => a.distance ≤ b.distance) l) :
    List.Pairwise (fun a b => a.distance ≤ b.distance) (insertByDistance x l) := by
  induction l with
  | nil => simp [insertByDistance]
  | cons y ys ih =>
    unfold insertByDistance
    obtain ⟨hy, hys⟩ := List.pairwise_cons.mp h
    by_cases hle : x.distance ≤ y.distance
    · rw [if_pos hle]
      refine List.pairwise_cons.mpr ⟨?_, h⟩
      intro z hz
      rcases List.mem_cons.mp hz with rfl | hz
      · exact hle
      · exact hle.trans (hy z hz)
    · rw [if_neg hle]
      refine List.pairwise_cons.mpr ⟨?_, ih hys⟩
      intro z hz
      rcases List.mem_cons.mp ((insertByDistance_perm x ys).mem_iff.mp hz) with rfl | hz2
      · exact (not_le.mp hle).le
      · exact hy z hz2

/-- The distance sort returns an ascending list. -/
lemma sortByDistance_pairwise (l : List NearbyUser) :
    List.Pairwise (fun a b => a.distance ≤ b.distance) (sortByDistance l) := by
  induction l with
  | nil => simp [sortByDistance]
  | cons x xs ih => exact insertByDistance_pairwise x (sortByDistance xs) ih

/-- Stability of the insertion step on a fixed distance class: inserting
an element either prepends it to its class or leaves the class alone. -/
lemma insertByDistance_filter (x : NearbyUser) (l : List NearbyUser) (d : ℝ) :
    (insertByDistance x l).filter (fun c => decide (c.distance = d)) =
      if x.distance = d then
        x :: l.filter (fun c => decide (c.distance = d))
      else l.filter (fun c => decide (c.distance = d)) := by
  induction l with
  | nil =>
    unfold insertByDistance
    by_cases hx : x.distance = d
    · simp [List.filter, hx]
    · simp [List.filter, hx]
  | cons y ys ih =>
    unfold insertByDistance
    by_cases hle : x.distance ≤ y.distance
    · rw [if_pos hle]
      by_cases hx : x.distance = d
      · simp [List.filter_cons, hx]
      · simp [List.filter_cons, hx]
    · rw [if_neg hle]
      by_cases hx : x.distance = d
      · have hy : ¬ y.distance = d := by
          intro hyd
          exact hle (le_of_eq (hx.trans hyd.symm))
        simp [List.filter_cons, hx, hy, ih]
      · simp [List.filter_cons, hx, ih]

/-- Stability of the distance sort: every distance class keeps exactly its
original members in their original order. -/
lemma sortByDistance_filter (l : List NearbyUser) (d : ℝ) :
    (sortByDistance l).filter (fun c => decide (c.distance = d)) =
      l.filter (fun c => decide (c.distance = d)) := by
  induction l with
  | nil => rfl
  | cons x xs ih =>
    unfold sortByDistance
    rw [insertByDistance_filter, ih]
    by_cases hx : x.distance = d
    · simp [List.filter_cons, hx]
    · simp [List.filter_cons, hx]

/-- Digit characters produced for a decimal digit evaluate back to it. -/
lemma charVal_digitChar : ∀ m, m < 10 → (Nat.digitChar m).toNat - Char.toNat '0' = m := by
  decide

/-- No output of digitChar is the underscore separator. -/
lemma digitChar_ne_underscore (m : ℕ) (h : m < 10) : Nat.digitChar m ≠ '_' := by
  interval_cases m <;> decide

/-- The fuel-based digit printer only prepends to its accumulator. -/
lemma toDigitsCore_append :
    ∀ (fuel n : ℕ) (acc : List Char), n < fuel →
      Nat.toDigitsCore 10 fuel n acc = Nat.toDigitsCore 10 fuel n [] ++ acc := by
  intro fuel
  induction fuel with
  | zero => intro n acc h; exact absurd h (Nat.not_lt_zero n)
  | succ f ih =>
    intro n acc h
    simp only [Nat.toDigitsCore]
    by_cases hdiv : n / 10 = 0
    · rw [if_pos hdiv, if_pos hdiv]
      rfl
    · rw [if_neg hdiv, if_neg hdiv]
      have hn : 0 < n := by
        rcases Nat.eq_zero_or_pos n with rfl | hn
        · exact absurd (by norm_num) hdiv
        · exact hn
      have hlt : n / 10 < f := by
        have h1 : n / 10 < n := Nat.div_lt_self hn (by norm_num)
        omega
      rw [ih (n / 10) (Nat.digitChar (n % 10) :: acc) hlt,
        ih (n / 10) [Nat.digitChar (n % 10)] hlt, List.append_assoc]
      rfl

/-- Every character the digit printer emits beyond its accumulator is a
digit character, hence not an underscore. -/
lemma toDigitsCore_ne_underscore :
    ∀ (fuel n : ℕ) (acc : List Char), (∀ c ∈ acc, c ≠ '_') →
      ∀ c ∈ Nat.toDigitsCore 10 fuel n acc, c ≠ '_' := by
  intro fuel
  induction fuel with
  | zero => intro n acc hacc c hc; exact hacc c hc
  | succ f ih =>
    intro n acc hacc c hc
    simp only [Nat.toDigitsCore] at hc
    by_cases hdiv : n / 10 = 0
    · rw [if_pos hdiv] at hc
      rcases List.mem_cons.mp hc with rfl | hc
      · exact digitChar_ne_underscore _ (Nat.mod_lt n (by norm_num))
      · exact hacc c hc
    · rw [if_neg hdiv] at hc
      refine ih (n / 10) (Nat.digitChar (n % 10) :: acc) ?_ c hc
      intro e he
      rcases List.mem_cons.mp he with rfl | he
      · exact digitChar_ne_underscore _ (Nat.mod_lt n (by norm_num))
      · exact hacc e he

/-- Decimal value of a most-significant-first digit-character list. -/
def digitsVal (l : List Char) : ℕ :=
  l.foldl (fun a c => 10 * a + (c.toNat - Char.toNat '0')) 0

/-- Appending one digit multiplies the value by ten and adds the digit. -/
lemma digitsVal_append (xs : List Char) (c : Char) :
    digitsVal (xs ++ [c]) = 10 * digitsVal xs + (c.toNat - Char.toNat '0') := by
  unfold digitsVal
  rw [List.foldl_append]
  rfl

/-- The digit printer is correct: evaluating its output returns the
number it printed. -/
lemma toDigitsCore_val :
    ∀ (fuel n : ℕ), n < fuel → digitsVal (Nat.toDigitsCore 10 fuel n []) = n := by
  intro fuel
  induction fuel with
  | zero => intro n h; exact absurd h (Nat.not_lt_zero n)
  | succ f ih =>
    intro n h
    simp only [Nat.toDigitsCore]
    by_cases hdiv : n / 10 = 0
    · rw [if_pos hdiv]
      have hn : n < 10 := by
        rcases Nat.lt_or_ge n 10 with hlt | hge
        · exact hlt
        · exact absurd hdiv (by
            have : 0 < n / 10 := Nat.div_pos hge (by norm_num)
            omega)
      have : digitsVal [Nat.digitChar (n % 10)] = n % 10 := by
        unfold digitsVal
        simp only [List.foldl_cons, List.foldl_nil, Nat.mul_zero, Nat.zero_add]
        exact charVal_digitChar (n % 10) (Nat.mod_lt n (by norm_num))
      rw [this, Nat.mod_eq_of_lt hn]
    · rw [if_neg hdiv]
      have hn : 0 < n := by
        rcases Nat.eq_zero_or_pos n with rfl | hn
        · exact absurd (by norm_num) hdiv
        · exact hn
      have hlt : n / 10 < f := by
        have h1 : n / 10 < n := Nat.div_lt_self hn (by norm_num)
        omega
      rw [toDigitsCore_append f (n / 10) [Nat.digitChar (n % 10)] hlt, digitsVal_append,
        ih (n / 10) hlt, charVal_digitChar (n % 10) (Nat.mod_lt n (by norm_num))]
      omega

/-- Decimal rendering of naturals is injective. -/
lemma natRepr_inj (n1 n2 : ℕ) (h : Nat.repr n1 = Nat.repr n2) : n1 = n2 := by
  unfold Nat.repr Nat.toDigits at h
  have hdata : Nat.toDigitsCore 10 (n1 + 1) n1 [] = Nat.toDigitsCore 10 (n2 + 1) n2 [] :=
    congrArg String.data h
  have h1 := toDigitsCore_val (n1 + 1) n1 (Nat.lt_succ_self n1)
  have h2 := toDigitsCore_val (n2 + 1) n2 (Nat.lt_succ_self n2)
  rw [← h1, ← h2, hdata]

/-- No character of a rendered natural is an underscore. -/
lemma natRepr_no_underscore (n : ℕ) : '_' ∉ (Nat.repr n).data := by
  intro hmem
  exact toDigitsCore_ne_underscore (n + 1) n [] (by intro c hc; cases hc) '_' hmem rfl

/-- Splitting at the first separator of two equal lists whose prefixes
avoid the separator identifies both halves. -/
lemma sep_split :
    ∀ (a1 b1 a2 b2 : List Char), '_' ∉ a1 → '_' ∉ a2 →
      a1 ++ '_' :: b1 = a2 ++ '_' :: b2 → a1 = a2 ∧ b1 = b2 := by
  intro a1
  induction a1 with
  | nil =>
    intro b1 a2 b2 _ h2 h
    cases a2 with
    | nil =>
      simp only [List.nil_append] at h
      exact ⟨rfl, (List.cons.inj h).2⟩
    | cons y ys =>
      simp only [List.nil_append, List.cons_append] at h
      obtain ⟨hy, _⟩ := List.cons.inj h
      exact absurd (hy ▸ List.mem_cons_self y ys) h2
  | cons x xs ih =>
    intro b1 a2 b2 h1 h2 h
    cases a2 with
    | nil =>
      simp only [List.cons_append, List.nil_append] at h
      obtain ⟨hx, _⟩ := List.cons.inj h
      exact absurd (hx ▸ List.mem_cons_self x xs) h1
    | cons y ys =>
      simp only [List.cons_append] at h
      obtain ⟨hxy, htail⟩ := List.cons.inj h
      have hxs : '_' ∉ xs := fun hm => h1 (List.mem_cons_of_mem x hm)
      have hys : '_' ∉ ys := fun hm => h2 (List.mem_cons_of_mem y hm)
      obtain ⟨ha, hb⟩ := ih b1 ys b2 hxs hys htail
      exact ⟨by rw [hxy, ha], hb⟩

/-- The id assigned to an SOS broadcast is process-unique: two calls get
the same id only when they come from the same reporter at the same
millisecond. -/
lemma mkAlertId_inj (u1 : String) (t1 : ℕ) (u2 : String) (t2 : ℕ)
    (h : mkAlertId u1 t1 = mkAlertId u2 t2) : u1 = u2 ∧ t1 = t2 := by
  unfold mkAlertId at h
  have hdata : "sos_".data ++ u1.data ++ '_' :: (Nat.repr t1).data =
      "sos_".data ++ u2.data ++ '_' :: (Nat.repr t2).data := by
    have := congrArg String.data h
    simpa [String.data_append, List.append_assoc] using this
  have hstrip : u1.data ++ '_' :: (Nat.repr t1).data =
      u2.data ++ '_' :: (Nat.repr t2).data := by
    have := hdata
    rwa [List.append_assoc, List.append_assoc, List.append_cancel_left_eq] at this
  have hrev : (Nat.repr t1).data.reverse ++ '_' :: u1.data.reverse =
      (Nat.repr t2).data.reverse ++ '_' :: u2.data.reverse := by
    have := congrArg List.reverse hstrip
    simpa [List.reverse_append] using this
  have hnu1 : '_' ∉ (Nat.repr t1).data.reverse := by
    rw [List.mem_reverse]
    exact natRepr_no_underscore t1
  have hnu2 : '_' ∉ (Nat.repr t2).data.reverse := by
    rw [List.mem_reverse]
    exact natRepr_no_underscore t2
  obtain ⟨hts, hus⟩ := sep_split _ _ _ _ hnu1 hnu2 hrev
  constructor
  · have : u1.data = u2.data := List.reverse_injective hus
    have hu : String.mk u1.data = String.mk u2.data := by rw [this]
    exact hu
  · have : (Nat.repr t1).data = (Nat.repr t2).data := List.reverse_injective hts
    exact natRepr_inj t1 t2 (by
      have : String.mk (Nat.repr t1).data = String.mk (Nat.repr t2).data := by rw [this]
      exact this)

/-- The recipients matched by the SOS loop: snapshot rows other than the
caller, with a truthy latitude, within the fixed 5 km radius. -/
def sosMatched (selfId : String) (latitude longitude : ℝ) (snap : List UserSnapshot) :
    List UserSnapshot :=
  snap.filter (fun s => decide (s.userId ≠ selfId) && decide (s.latitude ≠ 0) &&
    decide (calculateDistance latitude longitude s.latitude s.longitude ≤ 5))

/-- The nearby-sos-alert event built for one matched recipient. -/
def sosEmitOf (selfId selfName selfAccountId alertId : String) (addr : Option String)
    (latitude longitude : ℝ) (now : ℕ) (s : UserSnapshot) : SOSEmit :=
  SOSEmit.mk ("user:" ++ s.userId) "nearby-sos-alert" alertId selfId selfName
    selfAccountId latitude longitude addr now
    (round2 (calculateDistance latitude longitude s.latitude s.longitude))

/-- The SOS recipient loop notifies exactly the matched recipients, in
snapshot order, with one room emit each. -/
lemma sosScan_eq (selfId selfName selfAccountId alertId : String) (addr : Option String)
    (latitude longitude : ℝ) (now : ℕ) :
    ∀ snap : List UserSnapshot,
      sosScan selfId selfName selfAccountId alertId addr latitude longitude now snap =
        ((sosMatched selfId latitude longitude snap).map UserSnapshot.userId,
         (sosMatched selfId latitude longitude snap).map
           (sosEmitOf selfId selfName selfAccountId alertId addr latitude longitude now)) := by
  intro snap
  induction snap with
  | nil => rfl
  | cons s rest ih =>
    simp only [sosScan, sosMatched, List.filter_cons] at ih ⊢
    by_cases h1 : s.userId = selfId
    · simp [h1, ih]
    · by_cases h2 : s.latitude = 0
      · simp [h1, h2, ih]
      · by_cases h3 : calculateDistance latitude longitude s.latitude s.longitude ≤ 5
        · simp [h1, h2, h3, ih, sosEmitOf]
        · simp [h1, h2, h3, ih]

/-- Claim C8: the SOS broadcast assigns a process-unique alert id, scans
with the fixed 5 km radius, publishes one nearby-sos-alert (payload plus
that recipient's computed distance) to each matched recipient's user
room, and responds with the id list of notified recipients and a count
equal to that list's length. The handler never consults the presence
registry, so it cannot fail for recipients with no live connection: the
room emit for them simply reaches nobody. -/
theorem c8_sos_broadcast_notifies_matched (selfId selfName selfAccountId : String)
    (callerLoc : Option StoredLocation) (lat lng : ℝ) (addr : Option String) (now : ℕ)
    (snap : List UserSnapshot) (hv : validateCoordinates lat lng = true) :
    broadcastSOS selfId selfName selfAccountId callerLoc lat lng addr now snap =
      Except.ok
        (SOSResult.mk (mkAlertId selfId now)
          ((sosMatched selfId lat lng snap).map UserSnapshot.userId).length
          ((sosMatched selfId lat lng snap).map UserSnapshot.userId),
         (sosMatched selfId lat lng snap).map
           (sosEmitOf selfId selfName selfAccountId (mkAlertId selfId now)
             (sosAddress addr callerLoc) lat lng now)) ∧
    (∀ u1 t1 u2 t2, mkAlertId u1 t1 = mkAlertId u2 t2 → u1 = u2 ∧ t1 = t2) := by
  constructor
  · unfold broadcastSOS
    rw [hv]
    simp only [Bool.true_eq_false, if_false]
    rw [sosScan_eq]
  · exact mkAlertId_inj

/-- Witness for C8 at a one-candidate snapshot near the origin. -/
theorem c8_sos_broadcast_notifies_matched_witness :
    validateCoordinates 0 0 = true ∧
    (broadcastSOS "me" "Mia" "acc1" none 0 0 none 1700000000
        [UserSnapshot.mk "u1" "Ana" "a1" 0.009 0 none] =
      Except.ok
        (SOSResult.mk (mkAlertId "me" 1700000000)
          ((sosMatched "me" 0 0 [UserSnapshot.mk "u1" "Ana" "a1" 0.009 0 none]).map
            UserSnapshot.userId).length
          ((sosMatched "me" 0 0 [UserSnapshot.mk "u1" "Ana" "a1" 0.009 0 none]).map
            UserSnapshot.userId),
         (sosMatched "me" 0 0 [UserSnapshot.mk "u1" "Ana" "a1" 0.009 0 none]).map
           (sosEmitOf "me" "Mia" "acc1" (mkAlertId "me" 1700000000)
             (sosAddress none none) 0 0 1700000000)) ∧
     (∀ u1 t1 u2 t2, mkAlertId u1 t1 = mkAlertId u2 t2 → u1 = u2 ∧ t1 = t2)) :=
  ⟨validateCoordinates_zero,
   c8_sos_broadcast_notifies_matched "me" "Mia" "acc1" none 0 0 none 1700000000
     [UserSnapshot.mk "u1" "Ana" "a1" 0.009 0 none] validateCoordinates_zero⟩

/-- Claim C10: when the caller's stored location is absent (no
currentLocation document, or one without a latitude), the nearby-users
route rejects with the location error no matter what the snapshot holds
(the scan never runs), even for valid request coordinates; the SOS
broadcast has no such guard and succeeds with no stored caller
location. -/
theorem c10_nearby_requires_caller_location :
    (∀ (selfId : String) (lat lng r : ℝ) (snap : List UserSnapshot),
      validateCoordinates lat lng = true →
      findNearbyUsersRoute selfId none lat lng r snap =
        Except.error "Your location is not available. Please enable location updates.") ∧
    (∀ (selfId : String) (l : StoredLocation) (lat lng r : ℝ) (snap : List UserSnapshot),
      l.latitude = none → validateCoordinates lat lng = true →
      findNearbyUsersRoute selfId (some l) lat lng r snap =
        Except.error "Your location is not available. Please enable location updates.") ∧
    (∀ (selfId selfName selfAccountId : String) (lat lng : ℝ) (addr : Option String)
        (now : ℕ) (snap : List UserSnapshot),
      validateCoordinates lat lng = true →
      broadcastSOS selfId selfName selfAccountId none lat lng addr now snap =
        Except.ok
          (SOSResult.mk (mkAlertId selfId now)
            ((sosMatched selfId lat lng snap).map UserSnapshot.userId).length
            ((sosMatched selfId lat lng snap).map UserSnapshot.userId),
           (sosMatched selfId lat lng snap).map
             (sosEmitOf selfId selfName selfAccountId (mkAlertId selfId now)
               (sosAddress addr none) lat lng now))) := by
  refine ⟨?_, ?_, ?_⟩
  · intro selfId lat lng r snap hv
    unfold findNearbyUsersRoute
    rw [hv]
    simp [locationAvailable]
  · intro selfId l lat lng r snap hlat hv
    unfold findNearbyUsersRoute
    rw [hv]
    simp [locationAvailable, hlat]
  · intro selfId selfName selfAccountId lat lng addr now snap hv
    exact (c8_sos_broadcast_notifies_matched selfId selfName selfAccountId none lat lng
      addr now snap hv).1

/-- Witness for C10 at the origin with an empty and a one-element
snapshot. -/
theorem c10_nearby_requires_caller_location_witness :
    validateCoordinates 0 0 = true ∧
    (StoredLocation.mk none none (some "home")).latitude = none ∧
    (findNearbyUsersRoute "me" none 0 0 5
        [UserSnapshot.mk "u1" "Ana" "a1" 0.009 0 none] =
      Except.error "Your location is not available. Please enable location updates.") ∧
    (findNearbyUsersRoute "me" (some (StoredLocation.mk none none (some "home"))) 0 0 5
        [UserSnapshot.mk "u1" "Ana" "a1" 0.009 0 none] =
      Except.error "Your location is not available. Please enable location updates.") ∧
    broadcastSOS "you" "Zoe" "acc2" none 0 0 none 42 [] =
      Except.ok (SOSResult.mk (mkAlertId "you" 42)
        ((sosMatched "you" 0 0 []).map UserSnapshot.userId).length
        ((sosMatched "you" 0 0 []).map UserSnapshot.userId),
       (sosMatched "you" 0 0 []).map
         (sosEmitOf "you" "Zoe" "acc2" (mkAlertId "you" 42) (sosAddress none none) 0 0 42)) :=
  ⟨validateCoordinates_zero, rfl,
   c10_nearby_requires_caller_location.1 "me" 0 0 5
     [UserSnapshot.mk "u1" "Ana" "a1" 0.009 0 none] validateCoordinates_zero,
   c10_nearby_requires_caller_location.2.1 "me" (StoredLocation.mk none none (some "home"))
     0 0 5 [UserSnapshot.mk "u1" "Ana" "a1" 0.009 0 none] rfl validateCoordinates_zero,
   c10_nearby_requires_caller_location.2.2 "you" "Zoe" "acc2" 0 0 none 42 []
     validateCoordinates_zero⟩

/-- Membership in the candidate loop's output: exactly the snapshot rows
other than the caller, with a truthy latitude, within the radius. -/
lemma mem_buildNearbyList (selfId : String) (lat lng radiusKm : ℝ)
    (snap : List UserSnapshot) (u : NearbyUser) :
    u ∈ buildNearbyList selfId lat lng radiusKm snap ↔
      ∃ s, s ∈ snap ∧ s.userId ≠ selfId ∧ s.latitude ≠ 0 ∧
        calculateDistance lat lng s.latitude s.longitude ≤ radiusKm ∧
        u = toNearbyUser lat lng s := by
  induction snap with
  | nil => simp [buildNearbyList]
  | cons s rest ih =>
    unfold buildNearbyList
    by_cases h1 : s.userId = selfId
    · rw [if_pos h1, ih]
      constructor
      · rintro ⟨t, ht, h⟩
        exact ⟨t, List.mem_cons_of_mem _ ht, h⟩
      · rintro ⟨t, ht, hne, h⟩
        rcases List.mem_cons.mp ht with rfl | ht
        · exact absurd h1 hne
        · exact ⟨t, ht, hne, h⟩
    · rw [if_neg h1]
      by_cases h2 : s.latitude = 0
      · rw [if_pos h2, ih]
        constructor
        · rintro ⟨t, ht, h⟩
          exact ⟨t, List.mem_cons_of_mem _ ht, h⟩
        · rintro ⟨t, ht, hne, hlat, h⟩
          rcases List.mem_cons.mp ht with rfl | ht
          · exact absurd h2 hlat
          · exact ⟨t, ht, hne, hlat, h⟩
      · rw [if_neg h2]
        by_cases h3 : calculateDistance lat lng s.latitude s.longitude ≤ radiusKm
        · rw [if_pos h3]
          constructor
          · intro hu
            rcases List.mem_cons.mp hu with rfl | hu
            · exact ⟨s, List.mem_cons_self _ _, h1, h2, h3, rfl⟩
            · obtain ⟨t, ht, h⟩ := ih.mp hu
              exact ⟨t, List.mem_cons_of_mem _ ht, h⟩
          · rintro ⟨t, ht, hne, hlat, hdist, hu⟩
            rcases List.mem_cons.mp ht with rfl | ht
            · rw [hu]
              exact List.mem_cons_self _ _
            · exact List.mem_cons_of_mem _ (ih.mpr ⟨t, ht, hne, hlat, hdist, hu⟩)
        · rw [if_neg h3]
          rw [ih]
          constructor
          · rintro ⟨t, ht, h⟩
            exact ⟨t, List.mem_cons_of_mem _ ht, h⟩
          · rintro ⟨t, ht, hne, hlat, hdist, hu⟩
            rcases List.mem_cons.mp ht with rfl | ht
            · exact absurd hdist h3
            · exact ⟨t, ht, hne, hlat, hdist, hu⟩

/-- Ana sits about one kilometre north of the origin: within 5 km. -/
lemma dist009_le : calculateDistance 0 0 0.009 0 ≤ 5 := by
  rw [calculateDistance_meridian 0.009 (by norm_num) (by norm_num)]
  nlinarith [Real.pi_lt_d2, Real.pi_pos]

/-- Dana sits about four kilometres north of the origin: within 5 km. -/
lemma dist036_le : calculateDistance 0 0 0.036 0 ≤ 5 := by
  rw [calculateDistance_meridian 0.036 (by norm_num) (by norm_num)]
  nlinarith [Real.pi_lt_d2, Real.pi_pos]

/-- Tam sits about ten kilometres north of the origin: outside 5 km. -/
lemma dist09_gt : ¬ calculateDistance 0 0 0.09 0 ≤ 5 := by
  rw [calculateDistance_meridian 0.09 (by norm_num) (by norm_num)]
  push_neg
  nlinarith [Real.pi_gt_three]

/-- Ana is strictly closer to the origin than Dana. -/
lemma dist009_lt_036 : calculateDistance 0 0 0.009 0 < calculateDistance 0 0 0.036 0 := by
  rw [calculateDistance_meridian 0.009 (by norm_num) (by norm_num),
    calculateDistance_meridian 0.036 (by norm_num) (by norm_num)]
  nlinarith [Real.pi_pos]

/-- Snapshot for the concrete nearby query: candidates at roughly 4 km,
1 km and 10 km from the origin, deliberately out of distance order. -/
def snapC7 : List UserSnapshot :=
  [UserSnapshot.mk "u4" "Dana" "a4" 0.036 0 none,
   UserSnapshot.mk "u1" "Ana" "a1" 0.009 0 none,
   UserSnapshot.mk "u10" "Tam" "a10" 0.09 0 none]

/-- The candidate loop keeps Dana and Ana, in snapshot order, and drops
Tam. -/
lemma buildNearbyList_snapC7 :
    buildNearbyList "me" 0 0 5 snapC7 =
      [toNearbyUser 0 0 (UserSnapshot.mk "u4" "Dana" "a4" 0.036 0 none),
       toNearbyUser 0 0 (UserSnapshot.mk "u1" "Ana" "a1" 0.009 0 none)] := by
  unfold snapC7
  simp only [buildNearbyList]
  rw [if_neg (by decide : ¬ ("u4" = "me")), if_neg (by norm_num : ¬ ((0.036 : ℝ) = 0)),
    if_pos dist036_le,
    if_neg (by decide : ¬ ("u1" = "me")), if_neg (by norm_num : ¬ ((0.009 : ℝ) = 0)),
    if_pos dist009_le,
    if_neg (by decide : ¬ ("u10" = "me")), if_neg (by norm_num : ¬ ((0.09 : ℝ) = 0)),
    if_neg dist09_gt]

/-- The stable sort puts Ana before Dana. -/
lemma findNearby_snapC7 :
    findNearby "me" 0 0 5 snapC7 =
      [toNearbyUser 0 0 (UserSnapshot.mk "u1" "Ana" "a1" 0.009 0 none),
       toNearbyUser 0 0 (UserSnapshot.mk "u4" "Dana" "a4" 0.036 0 none)] := by
  unfold findNearby
  rw [buildNearbyList_snapC7]
  simp only [sortByDistance, insertByDistance, toNearbyUser]
  rw [if_neg (not_le.mpr dist009_lt_036)]

/-- Claim C7, counterexample: a candidate distinct from the caller and at
distance zero from the origin, hence within any 5 km radius, is dropped
because its latitude 0 is falsy in JS, so the scan returns the empty
list where the claim requires exactly that candidate. -/
theorem c7_counterexample_equator_candidate_skipped :
    findNearby "me" 0 17 5 [UserSnapshot.mk "u0" "Zed" "a0" 0 17 none] = [] ∧
    (UserSnapshot.mk "u0" "Zed" "a0" (0 : ℝ) 17 none).userId ≠ "me" ∧
    calculateDistance 0 17
      (UserSnapshot.mk "u0" "Zed" "a0" (0 : ℝ) 17 none).latitude
      (UserSnapshot.mk "u0" "Zed" "a0" (0 : ℝ) 17 none).longitude ≤ 5 := by
  refine ⟨?_, by decide, ?_⟩
  · unfold findNearby
    simp only [buildNearbyList]
    rw [if_neg (by decide : ¬ ("u0" = "me"))]
    simp [sortByDistance]
  · show calculateDistance 0 17 0 17 ≤ 5
    rw [calculateDistance_self]
    norm_num

/-- Claim C7, amended: the nearby scan returns exactly the snapshot
candidates other than the caller whose latitude is nonzero (a JS
truthiness re-check skips latitude exactly 0) and whose haversine
distance from the origin is within the radius, sorted ascending by
distance with the stable tie-break of the ECMAScript sort (equal
distances keep snapshot order); in particular, candidates at about 1 km,
4 km and 10 km with radius 5 km yield exactly the first two, ascending. -/
theorem c7_find_nearby_filters_and_sorts :
    (∀ (selfId : String) (lat lng r : ℝ) (snap : List UserSnapshot),
      List.Perm (findNearby selfId lat lng r snap) (buildNearbyList selfId lat lng r snap) ∧
      List.Pairwise (fun a b => a.distance ≤ b.distance) (findNearby selfId lat lng r snap) ∧
      (∀ d : ℝ,
        (findNearby selfId lat lng r snap).filter (fun c => decide (c.distance = d)) =
          (buildNearbyList selfId lat lng r snap).filter (fun c => decide (c.distance = d))) ∧
      (∀ u, u ∈ findNearby selfId lat lng r snap ↔
        ∃ s, s ∈ snap ∧ s.userId ≠ selfId ∧ s.latitude ≠ 0 ∧
          calculateDistance lat lng s.latitude s.longitude ≤ r ∧
          u = toNearbyUser lat lng s)) ∧
    findNearby "me" 0 0 5 snapC7 =
      [toNearbyUser 0 0 (UserSnapshot.mk "u1" "Ana" "a1" 0.009 0 none),
       toNearbyUser 0 0 (UserSnapshot.mk "u4" "Dana" "a4" 0.036 0 none)] := by
  refine ⟨?_, findNearby_snapC7⟩
  intro selfId lat lng r snap
  refine ⟨sortByDistance_perm _, sortByDistance_pairwise _, fun d => sortByDistance_filter _ d, ?_⟩
  intro u
  unfold findNearby
  rw [(sortByDistance_perm (buildNearbyList selfId lat lng r snap)).mem_iff]
  exact mem_buildNearbyList selfId lat lng r snap u
